import Mathlib

/-!
# Verification of the Runway_revamp UI controller (`src/index.tsx`)

Shallow embedding of the single-page UI controller: the mutable module-level
state (`sketchFile`, `modelFile`, `isDrawing`, `hasDrawn`, the canvas raster and
the DOM-visible flags) becomes an explicit `AppState` record; each DOM event
listener becomes a pure state-transition function; the async generation flow
(`handleGenerateClick`) becomes a function of the state and an environment
recording the outcome of the two file reads and the network call, returning the
final state together with the observable outcome (whether the async function
settled, whether the local alert fired, and the parts list actually submitted
to the service, if any).

JavaScript/DOM facts modelled explicitly:
  * `classList.add/remove('disabled')` and `classList.add/remove('hidden')`
    become boolean flags (`true` = class present).
  * `URL.createObjectURL(file)` becomes a pure function of the file.
  * `canvas.toDataURL('image/png').split(',')[1]` becomes a pure (injective on
    rasters as drawn here) string encoding of the raster content; the raster is
    the list of stroked line segments, `ctx.clearRect(0,0,w,h)` empties it.
  * `FileReader`: `readAsDataURL` either succeeds with a data URL string or
    fails.  The promise executor in `fileToGenerativePart` installs only an
    `onloadend` callback that calls `resolve((reader.result as string).split(',')[1])`
    and never calls a reject function (none is even bound).  On a failed read
    `reader.result` is `null`, so the member access throws inside the event
    callback (outside the executor), `resolve` is never invoked, and the
    promise never settles: this is the `PromiseOutcome.pending` case.
-/

namespace Runway

/-- A user-selected file: the code reads only its identity (for
`URL.createObjectURL`) and its declared `file.type` mime string. -/
structure SrcFile where
  name : String
  type : String
deriving DecidableEq, Repr

/-- Outcome of a `FileReader.readAsDataURL` read: the resulting data-URL
string, or failure (in which case `reader.result` is `null`). -/
inductive ReadResult where
  | success (dataUrl : String)
  | failure
deriving DecidableEq, Repr

/-- How a JS promise can behave for an awaiter: settle with a value, settle
rejected with an error message, or never settle at all. -/
inductive PromiseOutcome (α : Type) where
  | resolved (v : α)
  | rejected (msg : String)
  | pending
deriving DecidableEq, Repr

/-- A content part of the request/response: `inlineData` (data + mimeType) or
a text part. `Part.image d m` models `{ inlineData: { data: d, mimeType: m } }`;
`Part.text t` models `{ text: t }`. -/
inductive Part where
  | image (data : String) (mimeType : String)
  | text (content : String)
deriving DecidableEq, Repr

/-- Whether a response part carries inline image data (`part.inlineData` is
truthy in the scan loop of `handleGenerateClick`). -/
def isImagePart : Part → Bool
  | .image _ _ => true
  | .text _ => false

/-- A pointer position after coordinate correction (the claims do not depend
on the numeric coordinate values, only on the raster content as a list of
segments, so integer coordinates suffice). -/
abbrev Pos := Int × Int

/-- A stroked line segment `(from, to)` produced by `ctx.lineTo` + `ctx.stroke`. -/
abbrev Segment := Pos × Pos

/-- Module-level mutable state plus the DOM-visible attributes the listeners
read and write.  Boolean `*Disabled` flags model the `disabled` CSS class,
`*Hidden` flags model the `hidden` CSS class. -/
structure AppState where
  sketchFile : Option SrcFile
  modelFile : Option SrcFile
  isDrawing : Bool
  hasDrawn : Bool
  /-- content of the canvas raster: the accumulated stroked segments -/
  raster : List Segment
  /-- current path position (`ctx.moveTo` / last `ctx.lineTo`) -/
  penPos : Pos
  /-- `sketchCanvas.parentElement.classList` contains `disabled` -/
  canvasDisabled : Bool
  /-- `sketchUploadInput.parentElement.classList` contains `disabled` -/
  uploadDisabled : Bool
  /-- `modelTypeSelect.classList` contains `disabled` -/
  modelSelectDisabled : Bool
  /-- `sketchUploadInput.value` -/
  sketchUploadValue : String
  sketchPreviewVisible : Bool
  sketchPreviewSrc : String
  modelPreviewVisible : Bool
  modelPreviewSrc : String
  generateBtnDisabled : Bool
  placeholderHidden : Bool
  /-- `placeholder.innerHTML` -/
  placeholderText : String
  loadingHidden : Bool
  resultImageHidden : Bool
  resultImageSrc : String
  /-- `realismValue.textContent` -/
  realismValueText : String
  /-- `realismSlider.value` -/
  realismSliderValue : String
  /-- `modelTypeSelect.value` -/
  modelTypeValue : String
  /-- `designDescription.value` -/
  designDescriptionValue : String
deriving DecidableEq, Repr

/-- `URL.createObjectURL(file)`, modelled as a pure function of the file. -/
def objectUrl (f : SrcFile) : String := "blob:" ++ f.name

/-- The characters after the first comma, when one exists. -/
def afterComma : List Char → Option (List Char)
  | [] => none
  | ',' :: rest => some rest
  | _ :: rest => afterComma rest

/-- The characters up to (excluding) the next comma. -/
def upToComma : List Char → List Char
  | [] => []
  | ',' :: _ => []
  | c :: rest => c :: upToComma rest

/-- JS `s.split(',')[1]`: the segment between the first and second comma of a
data URL (an absent index yields the empty string here, standing for
`undefined`). -/
def dataOfUrl (s : String) : String :=
  match afterComma s.data with
  | some rest => String.mk (upToComma rest)
  | none => ""

/-- Base64 payload of `canvas.toDataURL('image/png')`, modelled as a pure
encoding of the raster content. -/
def pngBase64 : List Segment → String
  | [] => ""
  | ((a, b), (c, d)) :: rest =>
      toString a ++ "," ++ toString b ++ "-" ++ toString c ++ "," ++ toString d
        ++ ";" ++ pngBase64 rest

/-- `fileToGenerativePart` (src/index.tsx lines 36-48): on a successful read
the promise resolves with the inline-data part; on a failed read the
`onloadend` callback throws before `resolve` and no reject path exists, so
the promise never settles (see the header comment). -/
def fileToGenerativePart (file : SrcFile) : ReadResult → PromiseOutcome Part
  | .success dataUrl => .resolved (.image (dataOfUrl dataUrl) file.type)
  | .failure => .pending

/-- `canvasToGenerativePart` (lines 50-59): serialize the raster to PNG and
take the base64 payload, fixed `image/png` mime type. -/
def canvasToGenerativePart (raster : List Segment) : Part :=
  .image (pngBase64 raster) "image/png"

/-- `updateUIState` (lines 61-81): pure projection from the current state to
the three `disabled` affordance flags. -/
def updateUIState (s : AppState) : AppState :=
  { s with
    canvasDisabled := s.sketchFile.isSome
    uploadDisabled := s.hasDrawn
    modelSelectDisabled := s.modelFile.isSome }

/-- `clearCanvas` (lines 164-172): wipe the raster, reset `hasDrawn`, null
`sketchFile`, reset the upload input and hide the preview, then re-project
the affordances. -/
def clearCanvas (s : AppState) : AppState :=
  updateUIState
    { s with
      raster := []
      hasDrawn := false
      sketchFile := none
      sketchUploadValue := ""
      sketchPreviewVisible := false }

/-- The sketch-upload `change` listener (lines 86-94): when a file is present,
store it, show its preview, then call `clearCanvas()` (which nulls
`sketchFile` again and hides the preview) and `updateUIState()`. -/
def sketchUploadChange (s : AppState) (files : List SrcFile) : AppState :=
  match files.head? with
  | some f =>
      let s1 := { s with
        sketchFile := some f
        sketchPreviewSrc := objectUrl f
        sketchPreviewVisible := true }
      updateUIState (clearCanvas s1)
  | none => s

/-- The model-upload `change` listener (lines 97-104). -/
def modelUploadChange (s : AppState) (files : List SrcFile) : AppState :=
  match files.head? with
  | some f =>
      updateUIState
        { s with
          modelFile := some f
          modelPreviewSrc := objectUrl f
          modelPreviewVisible := true }
  | none => s

/-- The realism-slider `input` listener (lines 107-109): the browser updates
the slider's value; the handler mirrors it into the `%` label. -/
def realismInput (s : AppState) (v : String) : AppState :=
  { s with realismSliderValue := v, realismValueText := v ++ "%" }

/-- `startDrawing` (lines 131-140): ignored while a sketch file is active;
otherwise begin a new path at the corrected position and mark drawing state. -/
def startDrawing (s : AppState) (pos : Pos) : AppState :=
  if s.sketchFile.isSome then s
  else
    let s1 := updateUIState { s with isDrawing := true, hasDrawn := true }
    { s1 with penPos := pos }

/-- `draw` (lines 142-148): while drawing (and no sketch file), stroke a
segment from the current pen position to the new one. -/
def draw (s : AppState) (pos : Pos) : AppState :=
  if !s.isDrawing || s.sketchFile.isSome then s
  else { s with raster := s.raster ++ [(s.penPos, pos)], penPos := pos }

/-- `stopDrawing` (lines 150-152). -/
def stopDrawing (s : AppState) : AppState :=
  { s with isDrawing := false }

/-- Outcome of the single `ai.models.generateContent` network call: a
response (its candidate's ordered content parts, with
`response.candidates?.[0]?.content?.parts ?? []` modelled as the given list)
or a transport/service error. -/
inductive NetOutcome where
  | ok (respParts : List Part)
  | err (msg : String)
deriving DecidableEq, Repr

/-- Environment for one run of `handleGenerateClick`: the outcomes of the two
possible file reads and of the network call. -/
structure GenEnv where
  sketchRead : ReadResult
  modelRead : ReadResult
  network : NetOutcome
deriving DecidableEq, Repr

/-- Observable result of one run of `handleGenerateClick`: the state when the
run stops mutating it, whether the local `alert` fired, whether the async
function settled (so that the `finally` block ran — `false` means the run is
suspended forever on a never-settling promise), and the parts list submitted
to the service (`none` when no network call was made). -/
structure GenResult where
  state : AppState
  alerted : Bool
  settled : Bool
  sentParts : Option (List Part)
deriving DecidableEq, Repr

/-- `modelFile ? 'the uploaded model' : ...` (line 208). -/
def modelInfoOf (s : AppState) : String :=
  match s.modelFile with
  | some _ => "the uploaded model"
  | none => "a " ++ s.modelTypeValue ++ " model"

/-- `designDescription.value || 'a stunning fashion design'` (line 209):
the empty string is falsy in JS, so it falls back to the default phrase. -/
def userDescriptionOf (s : AppState) : String :=
  if s.designDescriptionValue = "" then "a stunning fashion design"
  else s.designDescriptionValue

/-- The template literal of lines 212-219, with the three interpolations. -/
def buildPrompt (modelInfo userDescription realism : String) : String :=
  "\n          Transform the provided clothing sketch into a hyperrealistic, photorealistic runway photo.\n          Have "
    ++ modelInfo
    ++ " wear this design.\n          Render the fabric, shimmer, style, and other details exactly as described in the following text: \""
    ++ userDescription
    ++ "\".\n          The realism level must be "
    ++ realism
    ++ "%.\n          Ensure the final image looks like high-quality professional photography, not an AI-generated image.\n          The output must be a single, cohesive, photorealistic image of the new design on the model.\n        "

/-- The text prompt synthesized at lines 208-219 from the current state. -/
def textPromptOf (s : AppState) : String :=
  buildPrompt (modelInfoOf s) (userDescriptionOf s) s.realismSliderValue

/-- The scan loop of lines 232-241: walk the response parts in order and
return the inline data (payload, mimeType) of the first image part, stopping
there (`break`); `none` when no part carries inline image data. -/
def firstImagePart : List Part → Option (String × String)
  | [] => none
  | .image d m :: _ => some (d, m)
  | .text _ :: rest => firstImagePart rest

/-- The `innerHTML` written by the catch block (line 249). -/
def errorHtml (msg : String) : String :=
  "<p style=\"color: red;\">An error occurred. Please try again.<br><small>"
    ++ msg ++ "</small></p>"

/-- Busy-state entry (lines 184-188): disable the trigger, hide placeholder
and result, show the progress indicator. -/
def busyEntry (s : AppState) : AppState :=
  { s with
    generateBtnDisabled := true
    placeholderHidden := true
    resultImageHidden := true
    loadingHidden := false }

/-- The `finally` block (lines 250-254): hide the progress indicator and
re-enable the trigger. -/
def finallyBlock (s : AppState) : AppState :=
  { s with loadingHidden := true, generateBtnDisabled := false }

/-- The catch block (lines 246-249) followed by the `finally` block: show the
placeholder with the inline error message, then reset the busy state. -/
def catchThenFinally (s : AppState) (msg : String) : AppState :=
  finallyBlock
    { s with placeholderHidden := false, placeholderText := errorHtml msg }

/-- A run suspended forever on a never-settling awaited promise: no further
state mutation, the `finally` block never runs, no request was submitted. -/
def hangResult (s : AppState) : GenResult :=
  { state := s, alerted := false, settled := false, sentParts := none }

/-- Steps 5-6 of `handleGenerateClick` (lines 222-244): submit the assembled
parts, then scan the response for the first inline-image part; display it, or
throw "API response did not contain an image." into the catch block. -/
def processResponse (s1 : AppState) (allParts : List Part) :
    NetOutcome → GenResult
  | .err m =>
      { state := catchThenFinally s1 m
        alerted := false, settled := true, sentParts := some allParts }
  | .ok resp =>
      match firstImagePart resp with
      | some (d, m) =>
          { state := finallyBlock
              { s1 with
                resultImageSrc := "data:" ++ m ++ ";base64," ++ d
                resultImageHidden := false }
            alerted := false, settled := true, sentParts := some allParts }
      | none =>
          { state := catchThenFinally s1 "API response did not contain an image."
            alerted := false, settled := true, sentParts := some allParts }

/-- Steps 3-4 of `handleGenerateClick` (lines 202-220) after the sketch part
is in hand: await the model-file part when a model file exists, append the
text prompt, and continue with the network call. -/
def addModelPart (s1 : AppState) (env : GenEnv) (ps : List Part) : GenResult :=
  match s1.modelFile with
  | some f =>
      match fileToGenerativePart f env.modelRead with
      | .resolved p =>
          processResponse s1 (ps ++ [p] ++ [Part.text (textPromptOf s1)])
            env.network
      | .rejected m =>
          { state := catchThenFinally s1 m
            alerted := false, settled := true, sentParts := none }
      | .pending => hangResult s1
  | none =>
      processResponse s1 (ps ++ [Part.text (textPromptOf s1)]) env.network

/-- `handleGenerateClick` (lines 178-255): precondition check and local
alert, busy-state entry, sketch-part encoding (uploaded file prioritized over
the drawn canvas), model part, prompt, network call, response scan, catch and
finally blocks.  An awaited file read that never settles stops the run in the
busy state (`hangResult`). -/
def handleGenerateClick (s : AppState) (env : GenEnv) : GenResult :=
  if s.sketchFile.isNone && !s.hasDrawn then
    { state := s, alerted := true, settled := true, sentParts := none }
  else
    let s1 := busyEntry s
    match s1.sketchFile with
    | some f =>
        match fileToGenerativePart f env.sketchRead with
        | .resolved p => addModelPart s1 env [p]
        | .rejected m =>
            { state := catchThenFinally s1 m
              alerted := false, settled := true, sentParts := none }
        | .pending => hangResult s1
    | none =>
        addModelPart s1 env
          (if s1.hasDrawn then [canvasToGenerativePart s1.raster] else [])

/-- The events the page handles after initialization: the DOM listeners of
src/index.tsx plus direct user edits of the three uncontrolled inputs
(description text, model-type select, realism slider via its handler). -/
inductive Event where
  | sketchUpload (files : List SrcFile)
  | modelUpload (files : List SrcFile)
  | realismSlide (v : String)
  | pointerDown (pos : Pos)
  | pointerMove (pos : Pos)
  | pointerUp
  | clearClick
  | generateClick (env : GenEnv)
  | setDescription (v : String)
  | setModelType (v : String)

/-- One handler dispatch: each event runs its listener to completion (for
`generateClick`, to the point where the async run stops mutating state). -/
def step (s : AppState) : Event → AppState
  | .sketchUpload files => sketchUploadChange s files
  | .modelUpload files => modelUploadChange s files
  | .realismSlide v => realismInput s v
  | .pointerDown p => startDrawing s p
  | .pointerMove p => draw s p
  | .pointerUp => stopDrawing s
  | .clearClick => clearCanvas s
  | .generateClick env => (handleGenerateClick s env).state
  | .setDescription v => { s with designDescriptionValue := v }
  | .setModelType v => { s with modelTypeValue := v }

/-- The state after script evaluation (lines 26-33 and the initial
`updateUIState()` call at line 260).  The `hidden`/visibility defaults come
from the page markup: placeholder visible, loading and result hidden,
previews hidden, slider at its midpoint default. -/
def initState : AppState :=
  updateUIState
    { sketchFile := none
      modelFile := none
      isDrawing := false
      hasDrawn := false
      raster := []
      penPos := (0, 0)
      canvasDisabled := false
      uploadDisabled := false
      modelSelectDisabled := false
      sketchUploadValue := ""
      sketchPreviewVisible := false
      sketchPreviewSrc := ""
      modelPreviewVisible := false
      modelPreviewSrc := ""
      generateBtnDisabled := false
      placeholderHidden := false
      placeholderText := ""
      loadingHidden := true
      resultImageHidden := true
      resultImageSrc := ""
      realismValueText := "50%"
      realismSliderValue := "50"
      modelTypeValue := "female"
      designDescriptionValue := "" }

/-- The state reached from initialization by a sequence of events. -/
def run (events : List Event) : AppState :=
  events.foldl step initState

/-- A sample uploaded file used in concrete evaluations. -/
def fileA : SrcFile := { name := "sketch.png", type := "image/png" }

/-- An arbitrary fixed environment for runs whose outcome does not depend on
the reads or the network. -/
def envAny : GenEnv :=
  { sketchRead := ReadResult.failure
    modelRead := ReadResult.failure
    network := NetOutcome.err "down" }

/-! ## Frame lemmas for the generation flow -/

theorem processResponse_core (s1 : AppState) (ps : List Part) (n : NetOutcome) :
    (processResponse s1 ps n).state.sketchFile = s1.sketchFile ∧
    (processResponse s1 ps n).state.modelFile = s1.modelFile ∧
    (processResponse s1 ps n).state.modelSelectDisabled = s1.modelSelectDisabled := by
  cases n with
  | err m => exact ⟨rfl, rfl, rfl⟩
  | ok resp =>
      cases h : firstImagePart resp with
      | none => simp [processResponse, h, catchThenFinally, finallyBlock]
      | some dm =>
          cases dm with
          | mk d m => simp [processResponse, h, finallyBlock]

theorem addModelPart_core (s1 : AppState) (env : GenEnv) (ps : List Part) :
    (addModelPart s1 env ps).state.sketchFile = s1.sketchFile ∧
    (addModelPart s1 env ps).state.modelFile = s1.modelFile ∧
    (addModelPart s1 env ps).state.modelSelectDisabled = s1.modelSelectDisabled := by
  cases hm : s1.modelFile with
  | none =>
      simpa [addModelPart, hm] using processResponse_core s1 _ env.network
  | some f =>
      cases hr : env.modelRead with
      | failure => simp [addModelPart, hm, hr, fileToGenerativePart, hangResult]
      | success u =>
          simpa [addModelPart, hm, hr, fileToGenerativePart] using
            processResponse_core s1 _ env.network

theorem handleGenerateClick_core (s : AppState) (env : GenEnv) :
    (handleGenerateClick s env).state.sketchFile = s.sketchFile ∧
    (handleGenerateClick s env).state.modelFile = s.modelFile ∧
    (handleGenerateClick s env).state.modelSelectDisabled = s.modelSelectDisabled := by
  cases hs : s.sketchFile with
  | none =>
      cases hd : s.hasDrawn with
      | false => simp [handleGenerateClick, hs, hd]
      | true =>
          simpa [handleGenerateClick, hs, hd, busyEntry] using
            addModelPart_core (busyEntry s) env _
  | some f =>
      cases hr : env.sketchRead with
      | failure =>
          simp [handleGenerateClick, hs, hr, fileToGenerativePart,
            hangResult, busyEntry]
      | success u =>
          simpa [handleGenerateClick, hs, hr, fileToGenerativePart,
            busyEntry] using addModelPart_core (busyEntry s) env _

/-! ## Claims C1, C3, C4, C8 -/

/-- C1 (code bug): after the sketch-upload change handler runs with a file
selected, `sketchFile` is `null` again (the handler's own `clearCanvas()` call
at line 91 discards the file it just stored at line 88), the drawing surface
is not disabled, and the just-shown preview is hidden again — evaluating the
handler at a concrete upload from the initial state. -/
theorem sketch_upload_change_discards_selected_file :
    (sketchUploadChange initState [fileA]).sketchFile = none ∧
    (sketchUploadChange initState [fileA]).canvasDisabled = false ∧
    (sketchUploadChange initState [fileA]).sketchPreviewVisible = false :=
  ⟨rfl, rfl, rfl⟩

/-- C3 (code bug): on a failed file read, `fileToGenerativePart` does not
settle as a rejected promise — it never settles at all (`pending`): the
executor binds no reject function and the `onloadend` callback throws on
`reader.result` (which is `null`) before ever calling `resolve`.  So no
rejection can propagate to the generation flow's catch block. -/
theorem fileToGenerativePart_read_failure_pending (f : SrcFile) :
    fileToGenerativePart f ReadResult.failure = PromiseOutcome.pending := rfl

/-- C4: with no uploaded sketch file and `hasDrawn` false, triggering
generation alerts locally and returns before the busy-state entry, the
encoding steps, and the network call: the whole result is the unchanged input
state with `alerted` set, `settled` true and no submitted request. -/
theorem generate_no_sketch_rejects_locally (s : AppState) (env : GenEnv)
    (h1 : s.sketchFile = none) (h2 : s.hasDrawn = false) :
    handleGenerateClick s env =
      { state := s, alerted := true, settled := true, sentParts := none } := by
  simp [handleGenerateClick, h1, h2]

/-- Witness for C4: the initial state has no sketch source, and triggering
generation there leaves everything unchanged apart from the alert. -/
theorem generate_no_sketch_rejects_locally_witness :
    handleGenerateClick initState envAny =
      { state := initState, alerted := true, settled := true, sentParts := none } :=
  generate_no_sketch_rejects_locally initState envAny rfl rfl

/-- C8: the clear operation empties the canvas raster, resets `hasDrawn`,
nulls the uploaded sketch file (and resets the upload control and preview),
and leaves the model-reference file and the model-type selection unchanged. -/
theorem clearCanvas_resets_sketch_slot_only (s : AppState) :
    (clearCanvas s).raster = [] ∧
    (clearCanvas s).hasDrawn = false ∧
    (clearCanvas s).sketchFile = none ∧
    (clearCanvas s).sketchUploadValue = "" ∧
    (clearCanvas s).sketchPreviewVisible = false ∧
    (clearCanvas s).modelFile = s.modelFile ∧
    (clearCanvas s).modelTypeValue = s.modelTypeValue :=
  ⟨rfl, rfl, rfl, rfl, rfl, rfl, rfl⟩

/-! ## Submitted-parts lemmas -/

theorem processResponse_sentParts (s1 : AppState) (ps : List Part)
    (n : NetOutcome) : (processResponse s1 ps n).sentParts = some ps := by
  cases n with
  | err m => rfl
  | ok resp =>
      cases h : firstImagePart resp with
      | none => simp [processResponse, h]
      | some dm => cases dm; simp [processResponse, h]

theorem addModelPart_sentParts (s1 : AppState) (env : GenEnv)
    (ps l : List Part) (h : (addModelPart s1 env ps).sentParts = some l) :
    ∃ tail, l = ps ++ tail := by
  cases hm : s1.modelFile with
  | none =>
      rw [addModelPart, hm, processResponse_sentParts] at h
      exact ⟨_, (Option.some_injective _ h).symm⟩
  | some f =>
      cases hr : env.modelRead with
      | failure =>
          simp only [addModelPart, hm, hr, fileToGenerativePart,
            hangResult] at h
          cases h
      | success u =>
          simp only [addModelPart, hm, hr, fileToGenerativePart] at h
          rw [processResponse_sentParts] at h
          refine ⟨[Part.image (dataOfUrl u) f.type] ++
            [Part.text (textPromptOf s1)], ?_⟩
          rw [← Option.some_injective _ h, List.append_assoc]

/-! ## Event-sequence invariants -/

theorem step_sketchFile_none (s : AppState) (e : Event)
    (h : s.sketchFile = none) : (step s e).sketchFile = none := by
  cases e with
  | sketchUpload files =>
      cases hf : files.head? with
      | none => simpa [step, sketchUploadChange, hf] using h
      | some f =>
          simp [step, sketchUploadChange, hf, clearCanvas, updateUIState]
  | modelUpload files =>
      cases hf : files.head? with
      | none => simpa [step, modelUploadChange, hf] using h
      | some f => simp [step, modelUploadChange, hf, updateUIState, h]
  | realismSlide v => simpa [step, realismInput] using h
  | pointerDown p => simp [step, startDrawing, h, updateUIState]
  | pointerMove p =>
      cases hid : s.isDrawing <;> simp [step, draw, h, hid]
  | pointerUp => simpa [step, stopDrawing] using h
  | clearClick => simp [step, clearCanvas, updateUIState]
  | generateClick env => rw [step, (handleGenerateClick_core s env).1]; exact h
  | setDescription v => simpa [step] using h
  | setModelType v => simpa [step] using h

theorem handleGenerate_sentParts_of_no_file (s : AppState) (env : GenEnv)
    (l : List Part) (hs : s.sketchFile = none)
    (h : (handleGenerateClick s env).sentParts = some l) :
    l.head? = some (canvasToGenerativePart s.raster) := by
  cases hd : s.hasDrawn with
  | false => rw [handleGenerateClick, hs, hd] at h; cases h
  | true =>
      have h' : (addModelPart (busyEntry s) env
          [canvasToGenerativePart s.raster]).sentParts = some l := by
        simpa [handleGenerateClick, hs, hd, busyEntry] using h
      obtain ⟨tail, rfl⟩ := addModelPart_sentParts _ env _ l h'
      rfl

/-- C2: after initialization, `sketchFile` is `null` at the end of every
event sequence — the sketch-upload handler re-nulls it via its own
`clearCanvas()` call, and no other handler sets it.  Consequently the
`sketchFile` guard in `startDrawing` never fires (drawing always starts), and
every request actually submitted from a reachable state carries the drawn
canvas, never an uploaded file, as its first part. -/
theorem sketchFile_always_none (events : List Event) :
    (run events).sketchFile = none ∧
    (∀ p, (startDrawing (run events) p).isDrawing = true) ∧
    (∀ env l, (handleGenerateClick (run events) env).sentParts = some l →
      l.head? = some (canvasToGenerativePart (run events).raster)) := by
  have key : ∀ (es : List Event) (s : AppState), s.sketchFile = none →
      (es.foldl step s).sketchFile = none := by
    intro es
    induction es with
    | nil => intro s h; exact h
    | cons e es ih => intro s h; exact ih _ (step_sketchFile_none s e h)
  have h0 : (run events).sketchFile = none := key events initState rfl
  exact ⟨h0, fun p => by simp [startDrawing, h0, updateUIState],
    fun env l hl => handleGenerate_sentParts_of_no_file _ env l h0 hl⟩

/-- The events of the C2 witness: the user draws one stroke. -/
def eventsW2 : List Event := [Event.pointerDown (0, 0), Event.pointerMove (1, 1)]

/-- The environment of the C2 witness: the network returns one image part. -/
def envW2 : GenEnv :=
  { sketchRead := ReadResult.failure
    modelRead := ReadResult.failure
    network := NetOutcome.ok [Part.image "AAA" "image/png"] }

set_option maxRecDepth 100000 in
/-- Witness for C2: after drawing a stroke, a submitted generation request's
first part is the canvas encoding. -/
theorem sketchFile_always_none_witness :
    ((handleGenerateClick (run eventsW2) envW2).sentParts.getD []).head?
      = some (canvasToGenerativePart (run eventsW2).raster) :=
  (sketchFile_always_none eventsW2).2.2 envW2
    ((handleGenerateClick (run eventsW2) envW2).sentParts.getD []) (by decide)

theorem step_model_locked (s : AppState) (e : Event)
    (h1 : s.modelFile.isSome = true) (h2 : s.modelSelectDisabled = true) :
    (step s e).modelFile.isSome = true ∧
    (step s e).modelSelectDisabled = true := by
  cases e with
  | sketchUpload files =>
      cases hf : files.head? with
      | none => simpa [step, sketchUploadChange, hf] using ⟨h1, h2⟩
      | some f =>
          simp [step, sketchUploadChange, hf, clearCanvas, updateUIState, h1]
  | modelUpload files =>
      cases hf : files.head? with
      | none => simpa [step, modelUploadChange, hf] using ⟨h1, h2⟩
      | some f => simp [step, modelUploadChange, hf, updateUIState]
  | realismSlide v => exact ⟨h1, h2⟩
  | pointerDown p =>
      cases hsf : s.sketchFile.isSome <;>
        simp [step, startDrawing, hsf, updateUIState, h1, h2]
  | pointerMove p =>
      cases hid : s.isDrawing <;>
        cases hsf : s.sketchFile.isSome <;>
          simp [step, draw, hid, hsf, h1, h2]
  | pointerUp => exact ⟨h1, h2⟩
  | clearClick => simp [step, clearCanvas, updateUIState, h1]
  | generateClick env =>
      rw [step, (handleGenerateClick_core s env).2.1,
        (handleGenerateClick_core s env).2.2]
      exact ⟨h1, h2⟩
  | setDescription v => exact ⟨h1, h2⟩
  | setModelType v => exact ⟨h1, h2⟩

/-- C10: once a model-reference file is uploaded (the state right after the
model-upload handler has `modelFile` set and the preset selector disabled),
no later event sequence ever resets `modelFile` to `null`: the file stays,
the preset selector stays disabled, and the `modelInfo` phrase of every
synthesized prompt is "the uploaded model", never a preset type. -/
theorem modelFile_never_cleared (s : AppState) (events : List Event)
    (h1 : s.modelFile.isSome = true) (h2 : s.modelSelectDisabled = true) :
    (events.foldl step s).modelFile.isSome = true ∧
    (events.foldl step s).modelSelectDisabled = true ∧
    modelInfoOf (events.foldl step s) = "the uploaded model" := by
  have key : ∀ (es : List Event) (t : AppState), t.modelFile.isSome = true →
      t.modelSelectDisabled = true →
      (es.foldl step t).modelFile.isSome = true ∧
      (es.foldl step t).modelSelectDisabled = true := by
    intro es
    induction es with
    | nil => intro t ht1 ht2; exact ⟨ht1, ht2⟩
    | cons e es ih =>
        intro t ht1 ht2
        obtain ⟨a, b⟩ := step_model_locked t e ht1 ht2
        exact ih _ a b
  obtain ⟨a, b⟩ := key events s h1 h2
  refine ⟨a, b, ?_⟩
  cases hm : (events.foldl step s).modelFile with
  | none => rw [hm] at a; cases a
  | some f => simp [modelInfoOf, hm]

/-- The start state of the C10 witness: a model photo has just been uploaded. -/
def stateW10 : AppState := step initState (Event.modelUpload [fileA])

/-- Witness for C10: after a model upload, even the clear action leaves the
model file in place, the selector disabled, and the prompt phrase fixed. -/
theorem modelFile_never_cleared_witness :
    ([Event.clearClick].foldl step stateW10).modelFile.isSome = true ∧
    ([Event.clearClick].foldl step stateW10).modelSelectDisabled = true ∧
    modelInfoOf ([Event.clearClick].foldl step stateW10) = "the uploaded model" :=
  modelFile_never_cleared stateW10 [Event.clearClick] rfl rfl

/-! ## Response-scan lemmas -/

theorem firstImagePart_of_split (pre : List Part) (d m : String)
    (post : List Part) (hpre : ∀ q ∈ pre, isImagePart q = false) :
    firstImagePart (pre ++ Part.image d m :: post) = some (d, m) := by
  induction pre with
  | nil => rfl
  | cons q qs ih =>
      cases q with
      | image d' m' =>
          have hq := hpre _ (List.mem_cons_self _ _)
          simp [isImagePart] at hq
      | text t =>
          simpa [firstImagePart] using
            ih fun q hq => hpre q (List.mem_cons_of_mem _ hq)

theorem firstImagePart_of_no_image (resp : List Part)
    (h : ∀ q ∈ resp, isImagePart q = false) : firstImagePart resp = none := by
  induction resp with
  | nil => rfl
  | cons q qs ih =>
      cases q with
      | image d m =>
          have hq := h _ (List.mem_cons_self _ _)
          simp [isImagePart] at hq
      | text t =>
          simpa [firstImagePart] using
            ih fun q hq => h q (List.mem_cons_of_mem _ hq)

theorem addModelPart_eq_processResponse (s1 : AppState) (env : GenEnv)
    (ps l : List Part) (h : (addModelPart s1 env ps).sentParts = some l) :
    addModelPart s1 env ps = processResponse s1 l env.network := by
  cases hm : s1.modelFile with
  | none =>
      rw [addModelPart, hm] at h ⊢
      rw [processResponse_sentParts] at h
      rw [Option.some_injective _ h]
  | some f =>
      cases hr : env.modelRead with
      | failure =>
          simp only [addModelPart, hm, hr, fileToGenerativePart,
            hangResult] at h
          cases h
      | success u =>
          simp only [addModelPart, hm, hr, fileToGenerativePart] at h ⊢
          rw [processResponse_sentParts] at h
          rw [Option.some_injective _ h]

theorem handleGenerate_eq_processResponse (s : AppState) (env : GenEnv)
    (l : List Part) (h : (handleGenerateClick s env).sentParts = some l) :
    handleGenerateClick s env = processResponse (busyEntry s) l env.network := by
  cases hs : s.sketchFile with
  | none =>
      cases hd : s.hasDrawn with
      | false => rw [handleGenerateClick, hs, hd] at h; cases h
      | true =>
          have hred : handleGenerateClick s env
              = addModelPart (busyEntry s) env
                  [canvasToGenerativePart s.raster] := by
            simp [handleGenerateClick, hs, hd, busyEntry]
          rw [hred] at h ⊢
          exact addModelPart_eq_processResponse _ env _ l h
  | some f =>
      cases hr : env.sketchRead with
      | failure =>
          simp [handleGenerateClick, hs, hr, fileToGenerativePart,
            hangResult, busyEntry] at h
      | success u =>
          have hred : handleGenerateClick s env
              = addModelPart (busyEntry s) env
                  [Part.image (dataOfUrl u) f.type] := by
            simp [handleGenerateClick, hs, hr, fileToGenerativePart, busyEntry]
          rw [hred] at h ⊢
          exact addModelPart_eq_processResponse _ env _ l h

/-- C5: for every run that submits a request (`sentParts = some l`) and gets
a response back: the scan takes the first part carrying inline image data —
for any split of `resp` with no image part before the found one — displays it
and settles; and when no part of `resp` carries image data, the run fails
with the explicit no-image error rendered in the re-shown placeholder while
the result image stays hidden. -/
theorem response_scan_first_image (s : AppState) (env : GenEnv)
    (resp l : List Part)
    (h : (handleGenerateClick s env).sentParts = some l)
    (hn : env.network = NetOutcome.ok resp) :
    (∀ pre d m post, resp = pre ++ Part.image d m :: post →
      (∀ q ∈ pre, isImagePart q = false) →
      (handleGenerateClick s env).state.resultImageSrc
          = "data:" ++ m ++ ";base64," ++ d ∧
      (handleGenerateClick s env).state.resultImageHidden = false ∧
      (handleGenerateClick s env).settled = true) ∧
    ((∀ q ∈ resp, isImagePart q = false) →
      (handleGenerateClick s env).state.placeholderHidden = false ∧
      (handleGenerateClick s env).state.placeholderText
          = errorHtml "API response did not contain an image." ∧
      (handleGenerateClick s env).state.resultImageHidden = true ∧
      (handleGenerateClick s env).settled = true) := by
  have hred := handleGenerate_eq_processResponse s env l h
  constructor
  · intro pre d m post hresp hpre
    have hf : firstImagePart resp = some (d, m) := by
      rw [hresp]; exact firstImagePart_of_split pre d m post hpre
    rw [hred, hn]
    simp [processResponse, hf, finallyBlock, busyEntry]
  · intro hnone
    have hf : firstImagePart resp = none := firstImagePart_of_no_image resp hnone
    rw [hred, hn]
    simp [processResponse, hf, catchThenFinally, finallyBlock, busyEntry]

/-- The state of the C5 witness: the user has drawn one stroke. -/
def stateW5 : AppState := run [Event.pointerDown (0, 0), Event.pointerMove (1, 1)]

/-- The environment of the C5 witness: the response carries a text part first
and the image part at index 1. -/
def envW5 : GenEnv :=
  { sketchRead := ReadResult.failure
    modelRead := ReadResult.failure
    network := NetOutcome.ok [Part.text "note", Part.image "AAA" "image/png"] }

set_option maxRecDepth 100000 in
/-- Witness for C5: the image at response index 1 (behind a text part) is the
displayed result. -/
theorem response_scan_first_image_witness :
    (handleGenerateClick stateW5 envW5).state.resultImageSrc
        = "data:" ++ "image/png" ++ ";base64," ++ "AAA" ∧
    (handleGenerateClick stateW5 envW5).state.resultImageHidden = false ∧
    (handleGenerateClick stateW5 envW5).settled = true :=
  (response_scan_first_image stateW5 envW5
      [Part.text "note", Part.image "AAA" "image/png"]
      ((handleGenerateClick stateW5 envW5).sentParts.getD []) (by decide)
      rfl).1
    [Part.text "note"] "AAA" "image/png" [] rfl (by decide)

/-- The state of the C6 evaluation: reachable by a model upload followed by a
drawn stroke. -/
def stateW6 : AppState :=
  run [Event.modelUpload [fileA], Event.pointerDown (0, 0),
    Event.pointerMove (1, 1)]

/-- The environment of the C6 evaluation: the model-file read fails; the
network outcome is irrelevant because the run never reaches it. -/
def envW6 : GenEnv :=
  { sketchRead := ReadResult.failure
    modelRead := ReadResult.failure
    network := NetOutcome.err "unreached" }

/-- C6 (code bug): on the encode-failure path the run never completes: after
busy-state entry, the awaited model-file read never settles
(`fileToGenerativePart` has no reject path), so the `finally` block never
runs — at this concrete reachable input the progress indicator is still
shown, the trigger stays disabled, and no request was submitted. -/
theorem generate_encode_failure_never_completes :
    (handleGenerateClick stateW6 envW6).settled = false ∧
    (handleGenerateClick stateW6 envW6).state.loadingHidden = false ∧
    (handleGenerateClick stateW6 envW6).state.generateBtnDisabled = true ∧
    (handleGenerateClick stateW6 envW6).sentParts = none :=
  ⟨rfl, rfl, rfl, rfl⟩

/-- C7: in every submitted request, an uploaded sketch file takes priority:
when `sketchFile` is set (even with a drawn path present) the first submitted
part is the encoding of the uploaded file, and the canvas raster is encoded
as the first part only when no file is present. -/
theorem sketch_file_takes_priority (s : AppState) (env : GenEnv)
    (l : List Part) :
    (∀ f, s.sketchFile = some f → s.hasDrawn = true →
      (handleGenerateClick s env).sentParts = some l →
      ∃ u, env.sketchRead = ReadResult.success u ∧
        l.head? = some (Part.image (dataOfUrl u) f.type)) ∧
    (s.sketchFile = none → s.hasDrawn = true →
      (handleGenerateClick s env).sentParts = some l →
      l.head? = some (canvasToGenerativePart s.raster)) := by
  constructor
  · intro f hs hd h
    cases hr : env.sketchRead with
    | failure =>
        simp [handleGenerateClick, hs, hr, fileToGenerativePart, hangResult,
          busyEntry] at h
    | success u =>
        refine ⟨u, rfl, ?_⟩
        have h' : (addModelPart (busyEntry s) env
            [Part.image (dataOfUrl u) f.type]).sentParts = some l := by
          simpa [handleGenerateClick, hs, hr, fileToGenerativePart,
            busyEntry] using h
        obtain ⟨tail, rfl⟩ := addModelPart_sentParts _ env _ l h'
        rfl
  · intro hs hd h
    exact handleGenerate_sentParts_of_no_file s env l hs h

/-- The state of the C7 witness: both an uploaded sketch file and a drawn
path exist (only reachable if the clear-on-upload wiring is bypassed, which
is exactly the edge case the claim is about). -/
def stateW7 : AppState := { initState with sketchFile := some fileA, hasDrawn := true }

/-- The environment of the C7 witness: the sketch read succeeds; the network
fails, which still means a request was submitted. -/
def envW7 : GenEnv :=
  { sketchRead := ReadResult.success "data:image/png;base64,QQQ"
    modelRead := ReadResult.failure
    network := NetOutcome.err "down" }

set_option maxRecDepth 100000 in
/-- Witness for C7: with both sources present, the submitted request's first
part is the uploaded file's encoding. -/
theorem sketch_file_takes_priority_witness :
    ∃ u, envW7.sketchRead = ReadResult.success u ∧
      ((handleGenerateClick stateW7 envW7).sentParts.getD []).head?
        = some (Part.image (dataOfUrl u) fileA.type) :=
  (sketch_file_takes_priority stateW7 envW7
      ((handleGenerateClick stateW7 envW7).sentParts.getD [])).1
    fileA rfl rfl (by decide)

theorem addModelPart_shape (s1 : AppState) (env : GenEnv) (sp : Part)
    (l : List Part) (h : (addModelPart s1 env [sp]).sentParts = some l) :
    (s1.modelFile = none → l = [sp, Part.text (textPromptOf s1)]) ∧
    (∀ f, s1.modelFile = some f →
      ∃ u, env.modelRead = ReadResult.success u ∧
        l = [sp, Part.image (dataOfUrl u) f.type, Part.text (textPromptOf s1)]) := by
  cases hm : s1.modelFile with
  | none =>
      rw [addModelPart, hm, processResponse_sentParts] at h
      constructor
      · intro _; exact (Option.some_injective _ h).symm
      · intro f hf; exact Option.noConfusion hf
  | some f0 =>
      cases hr : env.modelRead with
      | failure =>
          simp only [addModelPart, hm, hr, fileToGenerativePart,
            hangResult] at h
          cases h
      | success u =>
          simp only [addModelPart, hm, hr, fileToGenerativePart] at h
          rw [processResponse_sentParts] at h
          constructor
          · intro hf; exact Option.noConfusion hf
          · intro f hf
            obtain rfl : f0 = f := Option.some_injective _ hf
            exact ⟨u, rfl, (Option.some_injective _ h).symm⟩

/-- C9: every submitted request's parts list is ordered as
[sketch image part, model image part when a model file exists, exactly one
text part], and the text part is the prompt synthesized from the current
state: the `modelInfo` phrase (uploaded reference vs. named preset type), the
description or the default phrase (see `userDescriptionOf`), and the realism
percentage (see `buildPrompt` and `textPromptOf`). -/
theorem generate_request_shape (s : AppState) (env : GenEnv) (l : List Part)
    (h : (handleGenerateClick s env).sentParts = some l) :
    (s.modelFile = none →
      ∃ sp, isImagePart sp = true ∧ l = [sp, Part.text (textPromptOf s)]) ∧
    (∀ f, s.modelFile = some f →
      ∃ sp u, isImagePart sp = true ∧ env.modelRead = ReadResult.success u ∧
        l = [sp, Part.image (dataOfUrl u) f.type, Part.text (textPromptOf s)]) := by
  cases hs : s.sketchFile with
  | none =>
      cases hd : s.hasDrawn with
      | false => rw [handleGenerateClick, hs, hd] at h; cases h
      | true =>
          have h' : (addModelPart (busyEntry s) env
              [canvasToGenerativePart s.raster]).sentParts = some l := by
            simpa [handleGenerateClick, hs, hd, busyEntry] using h
          have shape := addModelPart_shape (busyEntry s) env _ l h'
          constructor
          · intro hm
            exact ⟨canvasToGenerativePart s.raster, rfl, shape.1 hm⟩
          · intro f hm
            obtain ⟨u, hu, hl⟩ := shape.2 f hm
            exact ⟨canvasToGenerativePart s.raster, u, rfl, hu, hl⟩
  | some f0 =>
      cases hr : env.sketchRead with
      | failure =>
          simp [handleGenerateClick, hs, hr, fileToGenerativePart, hangResult,
            busyEntry] at h
      | success u0 =>
          have h' : (addModelPart (busyEntry s) env
              [Part.image (dataOfUrl u0) f0.type]).sentParts = some l := by
            simpa [handleGenerateClick, hs, hr, fileToGenerativePart,
              busyEntry] using h
          have shape := addModelPart_shape (busyEntry s) env _ l h'
          constructor
          · intro hm
            exact ⟨Part.image (dataOfUrl u0) f0.type, rfl, shape.1 hm⟩
          · intro f hm
            obtain ⟨u, hu, hl⟩ := shape.2 f hm
            exact ⟨Part.image (dataOfUrl u0) f0.type, u, rfl, hu, hl⟩

/-- The state of the C9 witness: a drawn stroke, no model file. -/
def stateW9 : AppState := run [Event.pointerDown (2, 3), Event.pointerMove (4, 5)]

/-- The environment of the C9 witness: the service answers with no parts. -/
def envW9 : GenEnv :=
  { sketchRead := ReadResult.failure
    modelRead := ReadResult.failure
    network := NetOutcome.ok [] }

set_option maxRecDepth 100000 in
/-- Witness for C9: the submitted request is one image part followed by
exactly one text part holding the synthesized prompt. -/
theorem generate_request_shape_witness :
    ∃ sp, isImagePart sp = true ∧
      (handleGenerateClick stateW9 envW9).sentParts.getD []
        = [sp, Part.text (textPromptOf stateW9)] :=
  (generate_request_shape stateW9 envW9
      ((handleGenerateClick stateW9 envW9).sentParts.getD []) (by decide)).1 rfl

end Runway
